import Mathlib

/-!
Verification development for the `prompt-optimizer` repository.

The definitions below are a shallow embedding of the Python sources under
`src/prompt_optimizer/`: the metrics subsystem (`metrics.py`), the three
optimization strategies (`strategies/`), the model adapters (`adapters/`) and
the coordinator (`core.py`).  Python floats are modelled by exact numbers
(`ℚ` where the source only forms ratios of small integers, `ℝ` where the
source uses transcendental functions such as `ln` and `sqrt`); Python strings
are Lean `String`s processed as `List Char`; a raised exception is modelled by
the `.error` constructor of `Except`.
-/

set_option maxHeartbeats 1000000

namespace PromptOpt

/-! ## Python string primitives -/

/-- ASCII lowercase conversion of one character, modelling Python `str.lower`
on the ASCII range (the repository's texts and tables are treated as ASCII
plus the Latin-1 letters used by the bilingual word lists; only `A`–`Z` are
changed, as in CPython for that range). -/
def lowerChar (c : Char) : Char :=
  if 65 ≤ c.toNat ∧ c.toNat ≤ 90 then Char.ofNat (c.toNat + 32) else c

/-- Characters matched by the regex class `\w`.  Python's `\w` is the Unicode
word-character class; this model covers ASCII alphanumerics, the underscore
and the Latin-1 letter block (which contains the accented letters appearing in
the repository's bilingual tables; `×` and `÷` are excluded as non-letters). -/
def isWordChar (c : Char) : Bool :=
  c.isAlphanum || c = '_' ||
    (0xC0 ≤ c.toNat && c.toNat ≤ 0xFF && c.toNat ≠ 0xD7 && c.toNat ≠ 0xF7)

/-- Collect the maximal runs of characters satisfying `p`, discarding the
separating characters.  This is the common engine behind Python `str.split()`
(runs of non-whitespace) and `re.findall` of character-class runs.  The
accumulator holds the current run, reversed. -/
def splitRunsGo (p : Char → Bool) : List Char → List Char → List (List Char)
  | acc, [] => if acc.isEmpty then [] else [acc.reverse]
  | acc, c :: cs =>
    if p c then splitRunsGo p (c :: acc) cs
    else if acc.isEmpty then splitRunsGo p [] cs
    else acc.reverse :: splitRunsGo p [] cs

/-- Maximal runs of characters satisfying `p`. -/
def splitRuns (p : Char → Bool) (cs : List Char) : List (List Char) :=
  splitRunsGo p [] cs

/-- Python `text.split()` with no argument: the whitespace-separated words, no
empty pieces. -/
def pySplit (s : String) : List String :=
  (splitRuns (fun c => !c.isWhitespace) s.toList).map String.mk

/-- Python `text.lower()` (ASCII model). -/
def pyLower (s : String) : String :=
  String.mk (s.toList.map lowerChar)

/-- Python `text.strip()` on a character list. -/
def stripChars (cs : List Char) : List Char :=
  ((cs.dropWhile Char.isWhitespace).reverse.dropWhile Char.isWhitespace).reverse

/-- Python `text.strip()`. -/
def pyStrip (s : String) : String :=
  String.mk (stripChars s.toList)

/-- Case-sensitive prefix test on character lists. -/
def headMatches : List Char → List Char → Bool
  | [], _ => true
  | _ :: _, [] => false
  | a :: as, b :: bs => a = b && headMatches as bs

/-- Substring containment, Python `needle in hay` on character lists. -/
def containsL (needle : List Char) : List Char → Bool
  | [] => needle.isEmpty
  | c :: cs => headMatches needle (c :: cs) || containsL needle cs

/-- Substring containment on strings (Python `needle in hay`). -/
def containsSub (hay needle : String) : Bool :=
  containsL needle.toList hay.toList

/-- Word-set Jaccard overlap implemented, with identical bodies, by
`SemanticMetrics._word_overlap_similarity` (metrics.py:356),
`TokenMetrics._sentence_similarity` (metrics.py:280),
`SemanticCompressionStrategy._sentence_similarity`
(semantic_compression.py:252) and
`StructuralOptimizationStrategy._text_similarity`
(structural_optimization.py:523): lower-cased whitespace-split word sets,
`|A ∩ B| / |A ∪ B|`, returning 0 on empty input.  The metrics version omits
the leading empty-string guard, but an empty text yields an empty word set,
so all four functions compute the same value; exact rationals replace the
Python float division. -/
def pyWordOverlap (text1 text2 : String) : ℚ :=
  if text1 = "" ∨ text2 = "" then 0
  else
    let words1 := (pySplit (pyLower text1)).toFinset
    let words2 := (pySplit (pyLower text2)).toFinset
    if words1 = ∅ ∨ words2 = ∅ then 0
    else if words1 ∪ words2 = ∅ then 0
    else ((words1 ∩ words2).card : ℚ) / ((words1 ∪ words2).card : ℚ)

/-! ## `SemanticMetrics` (metrics.py)

`SemanticMetrics.__init__` builds
`TfidfVectorizer(max_features=1000, stop_words="english", ngram_range=(1,2))`
and `calculate_similarity` runs `fit_transform` on the two texts followed by
`cosine_similarity`, clamping to [0,1]; any vectorizer exception (which for
two in-memory strings means exactly the "empty vocabulary" `ValueError`)
falls back to `_word_overlap_similarity`. -/

namespace SemanticMetrics

/-- Tokens of sklearn's default `token_pattern` (word-character runs of length
at least 2) applied to the lower-cased text. -/
def sklearnTokens (s : String) : List String :=
  ((splitRuns isWordChar (pyLower s).toList).filter (fun r => 2 ≤ r.length)).map String.mk

/-- sklearn's built-in English stop-word list (`stop_words="english"`), an
external constant of the scikit-learn dependency. -/
def englishStopWords : List String :=
  ["a", "about", "above", "across", "after", "afterwards", "again", "against",
   "all", "almost", "alone", "along", "already", "also", "although", "always",
   "am", "among", "amongst", "amoungst", "amount", "an", "and", "another",
   "any", "anyhow", "anyone", "anything", "anyway", "anywhere", "are",
   "around", "as", "at", "back", "be", "became", "because", "become",
   "becomes", "becoming", "been", "before", "beforehand", "behind", "being",
   "below", "beside", "besides", "between", "beyond", "bill", "both",
   "bottom", "but", "by", "call", "can", "cannot", "cant", "co", "con",
   "could", "couldnt", "cry", "de", "describe", "detail", "do", "done",
   "down", "due", "during", "each", "eg", "eight", "either", "eleven",
   "else", "elsewhere", "empty", "enough", "etc", "even", "ever", "every",
   "everyone", "everything", "everywhere", "except", "few", "fifteen",
   "fifty", "fill", "find", "fire", "first", "five", "for", "former",
   "formerly", "forty", "found", "four", "from", "front", "full", "further",
   "get", "give", "go", "had", "has", "hasnt", "have", "he", "hence", "her",
   "here", "hereafter", "hereby", "herein", "hereupon", "hers", "herself",
   "him", "himself", "his", "how", "however", "hundred", "i", "ie", "if",
   "in", "inc", "indeed", "interest", "into", "is", "it", "its", "itself",
   "keep", "last", "latter", "latterly", "least", "less", "ltd", "made",
   "many", "may", "me", "meanwhile", "might", "mill", "mine", "more",
   "moreover", "most", "mostly", "move", "much", "must", "my", "myself",
   "name", "namely", "neither", "never", "nevertheless", "next", "nine",
   "no", "nobody", "none", "noone", "nor", "not", "nothing", "now",
   "nowhere", "of", "off", "often", "on", "once", "one", "only", "onto",
   "or", "other", "others", "otherwise", "our", "ours", "ourselves", "out",
   "over", "own", "part", "per", "perhaps", "please", "put", "rather", "re",
   "same", "see", "seem", "seemed", "seeming", "seems", "serious", "several",
   "she", "should", "show", "side", "since", "sincere", "six", "sixty", "so",
   "some", "somehow", "someone", "something", "sometime", "sometimes",
   "somewhere", "still", "such", "system", "take", "ten", "than", "that",
   "the", "their", "them", "themselves", "then", "thence", "there",
   "thereafter", "thereby", "therefore", "therein", "thereupon", "these",
   "they", "thick", "thin", "third", "this", "those", "though", "three",
   "through", "throughout", "thru", "thus", "to", "together", "too", "top",
   "toward", "towards", "twelve", "twenty", "two", "un", "under", "until",
   "up", "upon", "us", "very", "via", "was", "we", "well", "were", "what",
   "whatever", "when", "whence", "whenever", "where", "whereafter",
   "whereas", "whereby", "wherein", "whereupon", "wherever", "whether",
   "which", "while", "whither", "who", "whoever", "whole", "whom", "whose",
   "why", "will", "with", "within", "without", "would", "yet", "you",
   "your", "yours", "yourself", "yourselves"]

/-- The vectorizer's analyzer with `ngram_range=(1,2)`: tokenize, drop stop
words, then append the bigrams (consecutive surviving tokens joined by one
space). -/
def docTerms (s : String) : List String :=
  let toks := (sklearnTokens s).filter (fun t => t ∉ englishStopWords)
  toks ++ (toks.zip toks.tail).map (fun p => p.1 ++ " " ++ p.2)

/-- Number of occurrences of term `t` in a document's term list. -/
def countOccs (t : String) (doc : List String) : ℕ :=
  doc.count t

/-- The vectorizer's alphabetically sorted vocabulary over the two-document
corpus. -/
def rawVocab (d1 d2 : List String) : List String :=
  ((d1 ++ d2).dedup).insertionSort (fun a b => a ≤ b)

/-- `max_features=1000`: when the vocabulary exceeds 1000 terms, keep the 1000
with the highest total count over the corpus (ties resolved toward the
alphabetically earlier term, a deterministic rendering of numpy's argsort),
preserving the alphabetical ordering of the survivors. -/
def selectVocab (d1 d2 : List String) : List String :=
  let vocab := rawVocab d1 d2
  if vocab.length ≤ 1000 then vocab
  else
    let corpus := d1 ++ d2
    let ranked := vocab.insertionSort (fun a b =>
      countOccs b corpus < countOccs a corpus ∨
        (countOccs b corpus = countOccs a corpus ∧ a ≤ b))
    let kept := ranked.take 1000
    vocab.filter (fun t => t ∈ kept)

/-- sklearn's smooth inverse document frequency over the two-document corpus:
`ln((1 + n) / (1 + df)) + 1` with `n = 2`. -/
noncomputable def idf (d1 d2 : List String) (t : String) : ℝ :=
  let df : ℕ :=
    (if 0 < countOccs t d1 then 1 else 0) + (if 0 < countOccs t d2 then 1 else 0)
  Real.log (3 / (1 + (df : ℝ))) + 1

/-- tf-idf weight of term `t` in document `doc` (raw count times idf). -/
noncomputable def tfidfWeight (d1 d2 doc : List String) (t : String) : ℝ :=
  (countOccs t doc : ℝ) * idf d1 d2 t

/-- Cosine similarity of the two tf-idf vectors.  sklearn l2-normalizes each
row and `cosine_similarity` normalizes again; algebraically the result is
`⟨v₁, v₂⟩ / (‖v₁‖ ‖v₂‖)`, which is 0 when either vector is zero (division by
zero yields 0, matching sklearn's zero-vector convention). -/
noncomputable def tfidfCosine (d1 d2 : List String) : ℝ :=
  let V := selectVocab d1 d2
  let w1 := tfidfWeight d1 d2 d1
  let w2 := tfidfWeight d1 d2 d2
  (V.map (fun t => w1 t * w2 t)).sum /
    (Real.sqrt ((V.map (fun t => w1 t * w1 t)).sum) *
     Real.sqrt ((V.map (fun t => w2 t * w2 t)).sum))

/-- `SemanticMetrics._word_overlap_similarity` (metrics.py:356), the fallback
used when vectorization fails. -/
noncomputable def _word_overlap_similarity (text1 text2 : String) : ℝ :=
  ((pyWordOverlap text1 text2 : ℚ) : ℝ)

/-- `SemanticMetrics.calculate_similarity` (metrics.py:307).  Empty input
returns 0; the tf-idf/cosine result is clamped to [0,1]; the vectorizer
raises (empty vocabulary) exactly when neither text yields any term, in which
case the word-overlap fallback is used. -/
noncomputable def calculate_similarity (text1 text2 : String) : ℝ :=
  if text1 = "" ∨ text2 = "" then 0
  else
    let d1 := docTerms text1
    let d2 := docTerms text2
    if d1 = [] ∧ d2 = [] then _word_overlap_similarity text1 text2
    else max 0 (min (tfidfCosine d1 d2) 1)

end SemanticMetrics

/-! ## A `re.sub` engine for the literal-style patterns of the strategies -/

/-- One left-to-right, non-overlapping rewriting pass over a character list,
the scheme of Python `re.sub`.  The matcher receives the already-consumed
prefix (reversed, as boundary context) and the remaining suffix; a match
returns the replacement together with the number of consumed characters
(every pattern modelled here consumes at least one character, which the
`max _ 1` enforces).  The fuel starts at the length of the input, which is
enough because every step consumes at least one character. -/
def reSubGo (m : List Char → List Char → Option (List Char × ℕ)) :
    ℕ → List Char → List Char → List Char
  | 0, _, cs => cs
  | _ + 1, _, [] => []
  | n + 1, prev, c :: cs =>
    match m prev (c :: cs) with
    | some (r, k) =>
      let k := max k 1
      r ++ reSubGo m n ((List.take k (c :: cs)).reverse ++ prev) (List.drop k (c :: cs))
    | none => c :: reSubGo m n (c :: prev) cs

/-- Run one `re.sub`-style pass with matcher `m` over `cs`. -/
def reSub (m : List Char → List Char → Option (List Char × ℕ)) (cs : List Char) :
    List Char :=
  reSubGo m cs.length [] cs

/-- Case-insensitive prefix test (`re.IGNORECASE` literal matching). -/
def ciPrefix (needle hay : List Char) : Bool :=
  headMatches (needle.map lowerChar) (hay.map lowerChar)

/-- `re.sub(pat, repl, text, flags=IGNORECASE)` for a literal pattern. -/
def ciSub (pat repl : String) (cs : List Char) : List Char :=
  reSub (fun _ s =>
    if ciPrefix pat.toList s then some (repl.toList, pat.length) else none) cs

/-- `re.sub` for a literal pattern followed by `,?` (greedy optional comma). -/
def ciSubOptComma (pat repl : String) (cs : List Char) : List Char :=
  reSub (fun _ s =>
    if ciPrefix pat.toList s then
      let n := pat.length
      if (s.drop n).head? = some ',' then some (repl.toList, n + 1)
      else some (repl.toList, n)
    else none) cs

/-- Search for the lazy tail of a pattern `pre(.+?)post`: consume at least one
non-newline character, stopping as soon as `post` matches case-insensitively.
Returns the captured characters and the number of characters consumed from the
start of the capture (capture plus `post`). -/
def lazyCapture (post : List Char) : List Char → List Char → Option (List Char × ℕ)
  | _, [] => none
  | acc, c :: cs =>
    if c = '\n' then none
    else
      let acc := acc ++ [c]
      if ciPrefix post cs then some (acc, acc.length + post.length)
      else lazyCapture post acc cs

/-- `re.sub` for a pattern `pre(.+?)post` with replacement `replPre\1`
(IGNORECASE; no DOTALL, so the capture cannot cross a newline). -/
def ciSubLazyGroup (pre post replPre : String) (cs : List Char) : List Char :=
  reSub (fun _ s =>
    if ciPrefix pre.toList s then
      match lazyCapture post.toList [] (s.drop pre.length) with
      | some (cap, k) => some (replPre.toList ++ cap, pre.length + k)
      | none => none
    else none) cs

/-- `re.sub(r"\s+", " ", text)`: each maximal whitespace run becomes one
space. -/
def subWsRuns (cs : List Char) : List Char :=
  reSub (fun _ s =>
    match s with
    | c :: rest =>
      if c.isWhitespace then some ([' '], 1 + (rest.takeWhile Char.isWhitespace).length)
      else none
    | [] => none) cs

/-- `re.sub` for a pattern of shape whitespace-star, the character `x`,
whitespace-star (both sides greedy). -/
def subAroundChar (x : Char) (repl : String) (cs : List Char) : List Char :=
  reSub (fun _ s =>
    let a := (s.takeWhile Char.isWhitespace).length
    if (s.drop a).head? = some x then
      let b := ((s.drop (a + 1)).takeWhile Char.isWhitespace).length
      some (repl.toList, a + 1 + b)
    else none) cs

/-- `re.sub` for a run of two or more copies of the character `x`. -/
def subRepeatChar (x : Char) (repl : String) (cs : List Char) : List Char :=
  reSub (fun _ s =>
    let k := (s.takeWhile (· = x)).length
    if 2 ≤ k then some (repl.toList, k) else none) cs

/-! ## Strategies (strategies/) -/

/-- Python exception values raised by the code modelled here. -/
inductive PyError
  | valueError (msg : String)
  | reError (msg : String)
deriving DecidableEq, Repr

namespace OptimizationStrategy

/-- `OptimizationStrategy._validate_prompt` (strategies/base.py:100): raises
`ValueError` when the prompt strips to the empty string.  (The preceding
`isinstance(prompt, str)` check concerns non-string arguments, which are
outside this typed embedding.) -/
def _validate_prompt (prompt : String) : Except PyError Unit :=
  if pyStrip prompt = "" then
    Except.error (PyError.valueError "Il prompt non può essere vuoto")
  else Except.ok ()

end OptimizationStrategy

namespace SemanticCompressionStrategy

/-- A one-character string holding the apostrophe. -/
def apos : String := String.mk [Char.ofNat 39]

/-- `_load_filler_words` (semantic_compression.py:268). -/
def fillerWords : List String :=
  ["molto", "abbastanza", "piuttosto", "davvero", "veramente",
   "sostanzialmente", "praticamente", "effettivamente", "ovviamente",
   "chiaramente", "sicuramente", "certamente", "probabilmente",
   "possibilmente", "eventualmente", "naturalmente",
   "very", "quite", "rather", "really", "actually", "basically",
   "essentially", "obviously", "clearly", "certainly", "definitely",
   "probably", "possibly", "eventually", "naturally", "literally",
   "absolutely", "completely", "totally", "extremely", "incredibly",
   "right now", "at this moment", "currently", "presently",
   "in questo momento", "attualmente", "al momento"]

/-- `re.sub(r"[^\w]", "", word.lower())` (semantic_compression.py:115). -/
def wordClean (w : String) : String :=
  String.mk ((pyLower w).toList.filter isWordChar)

/-- The literal context patterns of `_is_contextually_important`
(semantic_compression.py:232). -/
def importantPatterns : List String :=
  ["very important", "really need", "actually means",
   "molto importante", "davvero necessario", "effettivamente significa"]

/-- `_is_contextually_important` (semantic_compression.py:222): a filler at
the first or last position is kept; otherwise the window `words[i-2 .. i+2]`
is joined, lower-cased and searched for the literal context patterns. -/
def _is_contextually_important (words : List String) (i : ℕ) : Bool :=
  if i = 0 ∨ i = words.length - 1 then true
  else
    let lo := i - 2
    let hi := min words.length (i + 3)
    let window := (words.drop lo).take (hi - lo)
    let contextText := pyLower (" ".intercalate window)
    importantPatterns.any (fun p => containsSub contextText p)

/-- `_remove_filler_words` (semantic_compression.py:109): keep a word unless
its cleaned form is a filler word and it is not contextually important; the
result re-joins the kept words with single spaces. -/
def _remove_filler_words (text : String) : String :=
  let words := pySplit text
  let filtered := words.enum.filterMap (fun iw =>
    if wordClean iw.2 ∉ fillerWords ∨ _is_contextually_important words iw.1 then some iw.2
    else none)
  " ".intercalate filtered

/-- The two pattern shapes occurring in `_load_redundant_phrases`: a plain
literal, or a literal followed by `,?`. -/
inductive PhrasePat
  | lit (pat : String)
  | litOptComma (pat : String)

/-- `_load_redundant_phrases` (semantic_compression.py:320), in dictionary
insertion order. -/
def redundantPhrases : List (PhrasePat × String) :=
  [(.lit "in order to", "to"),
   (.lit "for the purpose of", "to"),
   (.lit "due to the fact that", "because"),
   (.lit "in spite of the fact that", "although"),
   (.lit "at this point in time", "now"),
   (.lit "a large number of", "many"),
   (.lit "a small number of", "few"),
   (.lit "al fine di", "for"),
   (.lit "allo scopo di", "for"),
   (.lit "a causa del fatto che", "perché"),
   (.lit "nonostante il fatto che", "anche if"),
   (.lit "in questo momento", "ora"),
   (.lit "un gran numero di", "molti"),
   (.lit "un piccolo numero di", "pochi"),
   (.lit "please note that", ""),
   (.lit "it should be noted that", ""),
   (.lit "it is important to note that", ""),
   (.lit "si noti che", ""),
   (.lit "è importante notare che", ""),
   (.litOptComma "as you can see", ""),
   (.litOptComma "as mentioned before", ""),
   (.litOptComma "how si può vedere", ""),
   (.litOptComma "how menzionato prima", "")]

/-- Apply one redundant-phrase rule over the whole text (one `pattern.sub`). -/
def applyPhraseRule (text : List Char) (rule : PhrasePat × String) : List Char :=
  match rule.1 with
  | .lit p => ciSub p rule.2 text
  | .litOptComma p => ciSubOptComma p rule.2 text

/-- `_remove_redundant_phrases` (semantic_compression.py:125). -/
def _remove_redundant_phrases (text : String) : String :=
  String.mk (redundantPhrases.foldl applyPhraseRule text.toList)

/-- The two rule shapes occurring in `_load_simplification_rules`: a plain
literal, or `pre(.+?)post` with replacement `replPre\1`. -/
inductive SimpRule
  | lit (pat repl : String)
  | lazyGroup (pre post replPre : String)

/-- `_load_simplification_rules` (semantic_compression.py:352), in dictionary
insertion order. -/
def simplificationRules : List SimpRule :=
  [.lit "it is recommended that" "recommend",
   .lit "it is suggested that" "suggest",
   .lit "it is believed that" "believe",
   .lit "make a decision" "decide",
   .lit "give consideration to" "consider",
   .lit "make an assumption" "assume",
   .lit "conduct an analysis" "analyze",
   .lit "prendere una decisione" "decidere",
   .lit "dare considerazione a" "considerare",
   .lit ("fare un" ++ apos ++ "analysis") "analizzare",
   .lazyGroup "there are many " " that" "many ",
   .lazyGroup "there is a " " that" "a ",
   .lazyGroup "ci sono molti " " che" "molti ",
   .lazyGroup ("c" ++ apos ++ "è un ") " che" "un "]

/-- Apply one simplification rule over the whole text. -/
def applySimpRule (text : List Char) (rule : SimpRule) : List Char :=
  match rule with
  | .lit p r => ciSub p r text
  | .lazyGroup pre post replPre => ciSubLazyGroup pre post replPre text

/-- `_simplify_constructs` (semantic_compression.py:134). -/
def _simplify_constructs (text : String) : String :=
  String.mk (simplificationRules.foldl applySimpRule text.toList)

/-- `_is_duplicate_meaning` (semantic_compression.py:243): some already-kept
sentence has word-Jaccard similarity above 0.7. -/
def _is_duplicate_meaning (sentence : String) (existing : List String) : Bool :=
  existing.any (fun e => (7 : ℚ) / 10 < pyWordOverlap sentence e)

/-- `_condense_equivalent_phrases` (semantic_compression.py:141): split on
".", keep each stripped non-empty sentence unless a kept one is similar,
re-join with ". ". -/
def _condense_equivalent_phrases (text : String) : String :=
  let sentences := text.splitOn "."
  let condensed := sentences.foldl (fun acc s =>
    let s := pyStrip s
    if s ≠ "" ∧ ¬ _is_duplicate_meaning s acc then acc ++ [s] else acc) []
  ". ".intercalate condensed

/-- `_optimize_punctuation` (semantic_compression.py:155): collapse
whitespace runs, normalize spacing around `,` `.` `;` `:`, and collapse runs
of dots and commas. -/
def _optimize_punctuation (text : String) : String :=
  let cs := subWsRuns text.toList
  let cs := subAroundChar ',' ", " cs
  let cs := subAroundChar '.' ". " cs
  let cs := subAroundChar ';' "; " cs
  let cs := subAroundChar ':' ": " cs
  let cs := subRepeatChar '.' "." cs
  let cs := subRepeatChar ',' "," cs
  String.mk cs

/-- `SemanticCompressionStrategy.apply` (semantic_compression.py:31):
validate, then the five total transformation steps, then `strip()`. -/
def apply (prompt : String) : Except PyError String :=
  match OptimizationStrategy._validate_prompt prompt with
  | .error e => .error e
  | .ok _ =>
    .ok (pyStrip (_optimize_punctuation (_condense_equivalent_phrases
      (_simplify_constructs (_remove_redundant_phrases
        (_remove_filler_words prompt))))))

end SemanticCompressionStrategy

namespace TokenReductionStrategy

/-- The `re.error` produced by compiling the pattern at
token_reduction.py:260: in `r"\s*\\(\\s*"` the `\\` is a literal backslash
and the following `(` opens a group that is never closed. -/
def compressFormattingError : PyError :=
  PyError.reError "missing ), unterminated subpattern at position 5"

/-- `TokenReductionStrategy.apply` (token_reduction.py:33).  After
validation, steps 1–5 (abbreviations, contractions, symbol replacement,
removable-word elision, number/date normalization) are pure string rewrites
whose results never become observable: step 6 `_compress_formatting`
unconditionally raises `re.error` when it compiles the malformed pattern at
token_reduction.py:260.  Every call with a non-blank prompt therefore raises
`re.error`; a blank prompt raises `ValueError` first. -/
def apply (prompt : String) : Except PyError String :=
  match OptimizationStrategy._validate_prompt prompt with
  | .error e => .error e
  | .ok _ => .error compressFormattingError

end TokenReductionStrategy

namespace StructuralOptimizationStrategy

/-- The four-character literal `\n\n` (backslash, n, backslash, n):
structural_optimization.py:240 and :235 split and join on the Python string
literal "\\n\\n", which denotes these four characters, not two newlines. -/
def nnLit : String := String.mk ['\\', 'n', '\\', 'n']

/-- The section buckets of `_analyze_structure`
(structural_optimization.py:117). -/
inductive SectionKind
  | context | instructions | constraints | examples | outputFormat | other
deriving DecidableEq, Repr

/-- Context keywords of `_classify_paragraph`
(structural_optimization.py:254). -/
def contextKeywords : List String :=
  ["background", "context", "situation", "given", "assume", "scenario",
   "setting", "environment", "contesto", "situazione", "dato", "supponi",
   "scenario", "ambiente"]

/-- Instruction keywords of `_classify_paragraph`
(structural_optimization.py:271). -/
def instructionKeywords : List String :=
  ["please", "write", "create", "generate", "analyze", "explain",
   "describe", "list", "identify", "compare", "for favore", "scrivi",
   "creates", "genera", "analyzes", "spiega", "descrivi", "elenca",
   "identifica", "confronta"]

/-- Constraint keywords of `_classify_paragraph`
(structural_optimization.py:294). -/
def constraintKeywords : List String :=
  ["do not", "avoid", "must not", "never", "only", "limit", "restrict",
   "constraint", "requirement", "non", "evita", "non devi", "mai", "solo",
   "limita", "restrizione", "vincolo", "requisito"]

/-- Example keywords of `_classify_paragraph`
(structural_optimization.py:315). -/
def exampleKeywords : List String :=
  ["example", "for instance", "such as", "like", "example", "ad example",
   "how", "tipo"]

/-- Output-format keywords of `_classify_paragraph`
(structural_optimization.py:326). -/
def formatKeywords : List String :=
  ["format", "output", "response", "answer", "result", "formato",
   "risposta", "result"]

/-- `_classify_paragraph` (structural_optimization.py:249): first keyword
list with a substring hit in the lower-cased paragraph wins. -/
def _classify_paragraph (p : String) : SectionKind :=
  let pl := pyLower p
  if contextKeywords.any (containsSub pl) then .context
  else if instructionKeywords.any (containsSub pl) then .instructions
  else if constraintKeywords.any (containsSub pl) then .constraints
  else if exampleKeywords.any (containsSub pl) then .examples
  else if formatKeywords.any (containsSub pl) then .outputFormat
  else .other

/-- `_split_into_paragraphs` (structural_optimization.py:237): split on the
literal `\n\n` (see `nnLit`); when no such separator occurs, fall back to
`re.split(r"[.!?]+", text)` with stripping and dropping of empty pieces
(modelled by the maximal runs of non-separator characters, which agrees with
`re.split` after the strip-and-filter); finally strip every paragraph and
drop empties. -/
def _split_into_paragraphs (text : String) : List String :=
  let paragraphs := text.splitOn nnLit
  let paragraphs :=
    if paragraphs.length = 1 then
      (((splitRuns (fun c => !(c = '.' || c = '!' || c = '?')) text.toList).map
        String.mk).map pyStrip).filter (· ≠ "")
    else paragraphs
  (paragraphs.map pyStrip).filter (· ≠ "")

/-- `_analyze_structure` (structural_optimization.py:117): each paragraph is
appended to the bucket chosen by `_classify_paragraph` (appending in order is
filtering by classification). -/
def _analyze_structure (prompt : String) : SectionKind → List String :=
  fun k => (_split_into_paragraphs prompt).filter (fun p => _classify_paragraph p = k)

/-- `_remove_section_duplicates` (structural_optimization.py:351): keep an
item unless an already-kept one has word-Jaccard similarity above 0.8. -/
def _remove_section_duplicates (items : List String) : List String :=
  items.foldl (fun acc item =>
    if acc.any (fun e => (4 : ℚ) / 5 < pyWordOverlap item e) then acc
    else acc ++ [item]) []

/-- The canonical section order of `_reorganize_sections`
(structural_optimization.py:149). -/
def optimalOrder : List SectionKind :=
  [.context, .instructions, .constraints, .examples, .outputFormat, .other]

/-- `_reorganize_sections` (structural_optimization.py:137): rebuild the
non-empty buckets in canonical order, deduplicating inside each bucket. -/
def _reorganize_sections (sections : SectionKind → List String) :
    List (SectionKind × List String) :=
  optimalOrder.filterMap (fun k =>
    if sections k ≠ [] then
      let u := _remove_section_duplicates (sections k)
      if u ≠ [] then some (k, u) else none
    else none)

/-- Python `str.strip('.')`. -/
def stripDots (s : String) : String :=
  String.mk (((s.toList.dropWhile (· = '.')).reverse.dropWhile (· = '.')).reverse)

/-- `_format_context_section` (structural_optimization.py:367). -/
def _format_context_section (l : List String) : String :=
  if l.length = 1 then l.headI else " ".intercalate l

/-- `_format_instructions_section` (structural_optimization.py:375): a single
instruction is kept; more than two are enumerated "1. ..." on newline-joined
lines (each stripped of dots); exactly two are space-joined. -/
def _format_instructions_section (l : List String) : String :=
  if l.length = 1 then l.headI
  else if 2 < l.length then
    "\n".intercalate (l.enum.map (fun iw =>
      toString (iw.1 + 1) ++ ". " ++ stripDots iw.2))
  else " ".intercalate l

/-- `_format_constraints_section` (structural_optimization.py:389). -/
def _format_constraints_section (l : List String) : String :=
  if l.length = 1 then l.headI
  else "\n".intercalate (l.map (fun c0 =>
    let c := pyStrip c0
    if ¬ c.startsWith "-" ∧ ¬ c.startsWith "•" then "- " ++ c else c))

/-- `_format_examples_section` (structural_optimization.py:404). -/
def _format_examples_section (l : List String) : String :=
  if l.length = 1 then l.headI
  else "\n".intercalate (l.enum.map (fun iw =>
    "Example " ++ toString (iw.1 + 1) ++ ": " ++ iw.2))

/-- `_format_output_section` (structural_optimization.py:416). -/
def _format_output_section (l : List String) : String :=
  let content := " ".intercalate l
  if ¬ (["format", "output", "response"].any (containsSub (pyLower content))) then
    "Output format: " ++ content
  else content

/-- `_format_other_section` (structural_optimization.py:428). -/
def _format_other_section (l : List String) : String :=
  " ".intercalate l

/-- Dispatch of `_optimize_section_formatting`
(structural_optimization.py:168). -/
def formatSection : SectionKind → List String → String
  | .context, l => _format_context_section l
  | .instructions, l => _format_instructions_section l
  | .constraints, l => _format_constraints_section l
  | .examples, l => _format_examples_section l
  | .outputFormat, l => _format_output_section l
  | .other, l => _format_other_section l

/-- `_optimize_section_formatting` (structural_optimization.py:168). -/
def _optimize_section_formatting (sections : List (SectionKind × List String)) :
    List (SectionKind × String) :=
  sections.filterMap (fun kl =>
    if kl.2 = [] then none else some (kl.1, formatSection kl.1 kl.2))

/-- Separator class of `re.split(r"[.!?\\n]+", ...)` at
structural_optimization.py:435: the doubled escape puts a literal backslash
and the letter n into the class, so the instruction text also splits on
the letter n. -/
def mergeSepChars : List Char := ['.', '!', '?', '\\', 'n']

/-- `_merge_similar_instructions` (structural_optimization.py:432). -/
def _merge_similar_instructions (instructionsText : String) : String :=
  let sentences :=
    (splitRuns (fun c => !(c ∈ mergeSepChars)) instructionsText.toList).map String.mk
  let uniq := sentences.foldl (fun acc s =>
    let s := pyStrip s
    if s = "" then acc
    else if acc.any (fun e => (7 : ℚ) / 10 < pyWordOverlap s e) then acc
    else acc ++ [s]) []
  ". ".intercalate uniq

/-- `_consolidate_instructions` (structural_optimization.py:206). -/
def _consolidate_instructions (sections : List (SectionKind × String)) :
    List (SectionKind × String) :=
  sections.map (fun ks =>
    if ks.1 = SectionKind.instructions then (ks.1, _merge_similar_instructions ks.2)
    else ks)

/-- `_get_section_header` (structural_optimization.py:454). -/
def _get_section_header : SectionKind → Option String
  | .context => some "Context:"
  | .instructions => some "Instructions:"
  | .constraints => some "Constraints:"
  | .examples => some "Examples:"
  | .outputFormat => some "Output Format:"
  | .other => none

/-- `_apply_final_formatting` (structural_optimization.py:218): skip blank
sections, add headers when more than two sections survive, join with the
literal `\n\n` (see `nnLit`). -/
def _apply_final_formatting (sections : List (SectionKind × String)) : String :=
  let parts := sections.foldl (fun acc ks =>
    if pyStrip ks.2 = "" then acc
    else
      let acc :=
        if 2 < sections.length then
          match _get_section_header ks.1 with
          | some h => acc ++ [h]
          | none => acc
        else acc
      acc ++ [pyStrip ks.2]) []
  nnLit.intercalate parts

/-- `StructuralOptimizationStrategy.apply` (structural_optimization.py:32):
validate, then analyze, reorganize, format, consolidate and reassemble, then
`strip()`. -/
def apply (prompt : String) : Except PyError String :=
  match OptimizationStrategy._validate_prompt prompt with
  | .error e => .error e
  | .ok _ =>
    .ok (pyStrip (_apply_final_formatting (_consolidate_instructions
      (_optimize_section_formatting (_reorganize_sections
        (_analyze_structure prompt))))))

end StructuralOptimizationStrategy

/-! ## Model adapters (adapters/) -/

/-- `ModelConfig` (adapters/base.py:15); prices as exact rationals.  The
`special_tokens` map (always empty in the catalogs) is not modelled. -/
structure ModelConfig where
  modelName : String
  maxContextLength : ℕ
  costPer1kInputTokens : ℚ
  costPer1kOutputTokens : ℚ
  tokenizerName : Option String
deriving DecidableEq, Repr

/-- `LLMAdapter._clean_text_for_tokenization` (adapters/base.py:206).  The
pattern `r'\\s+'` contains a doubled escape: it denotes a literal backslash
followed by one or more letters s, so ordinary whitespace runs are NOT
collapsed; the subsequent `strip()` still removes leading and trailing
whitespace. -/
def _clean_text_for_tokenization (text : String) : String :=
  pyStrip (String.mk (reSub (fun _ s =>
    match s with
    | c :: rest =>
      let k := (rest.takeWhile (· = 's')).length
      if c = '\\' ∧ 1 ≤ k then some ([' '], 1 + k) else none
    | [] => none) text.toList))

/-- `len(re.findall(r'[^\w\s]', text))`: characters that are neither word
characters nor whitespace (openai_adapter.py:175, claude_adapter.py:180). -/
def punctuationCount (cs : List Char) : ℕ :=
  (cs.filter (fun c => !isWordChar c && !c.isWhitespace)).length

/-- The character class actually denoted by the first branch of
`r'[0-9@#$%^&*()_+={}\\[\\]|;:,.<>?/~`]'` (openai_adapter.py:179,
claude_adapter.py:188): the doubled escapes close the class right after the
bracket, so it holds the digits, the characters `@#$%^&*()_+=`, both braces,
the backslash and the opening bracket — and nothing after `\\]`. -/
def specialClassChar (c : Char) : Bool :=
  c.isDigit ||
    c ∈ ['@', '#', '$', '%', '^', '&', '*', '(', ')', '_', '+', '=',
         Char.ofNat 123, Char.ofNat 125, '\\', '[']

/-- The second branch of the same pattern, in which the regex metacharacters
are active: the literal characters `;` `:` `,`, any non-newline character,
`<`, an optional `>`, then `/` `~` backtick `]`.  Returns the match length. -/
def specialSeqMatch : List Char → Option ℕ
  | ';' :: ':' :: ',' :: c :: '<' :: rest =>
    if c = '\n' then none
    else
      match rest with
      | '>' :: '/' :: '~' :: g :: ']' :: _ =>
        if g = Char.ofNat 96 then some 10 else none
      | '/' :: '~' :: g :: ']' :: _ =>
        if g = Char.ofNat 96 then some 9 else none
      | _ => none
  | _ => none

/-- Count the non-overlapping matches of the special-character pattern, the
class branch being tried first at every position, as `re.findall` does. -/
def countSpecialGo : ℕ → List Char → ℕ
  | 0, _ => 0
  | _ + 1, [] => 0
  | n + 1, c :: cs =>
    if specialClassChar c then 1 + countSpecialGo n cs
    else
      match specialSeqMatch (c :: cs) with
      | some k => 1 + countSpecialGo n (List.drop k (c :: cs))
      | none => countSpecialGo n cs

/-- `len(re.findall(...))` for the special-character pattern. -/
def specialCharsCount (cs : List Char) : ℕ :=
  countSpecialGo cs.length cs

/-- `len(re.findall(r'<[^>]+>', text))` (claude_adapter.py:184). -/
def xmlTagCountGo : ℕ → List Char → ℕ
  | 0, _ => 0
  | _ + 1, [] => 0
  | n + 1, c :: cs =>
    if c = '<' then
      let body := cs.takeWhile (· ≠ '>')
      if 1 ≤ body.length ∧ (cs.drop body.length).head? = some '>' then
        1 + xmlTagCountGo n (cs.drop (body.length + 1))
      else xmlTagCountGo n cs
    else xmlTagCountGo n cs

/-- Number of XML-like tags in the text. -/
def xmlTagCount (cs : List Char) : ℕ :=
  xmlTagCountGo cs.length cs

/-- `OpenAIAdapter._estimate_gpt_tokens` (openai_adapter.py:150), with exact
rationals for the float arithmetic.  `int(·)` truncates, which equals the
floor on these non-negative values, and the result is clamped to at least
1. -/
def _estimate_gpt_tokens (text : String) : ℕ :=
  let cs := text.toList
  let words := pySplit text
  let baseEstimate : ℚ := (cs.length : ℚ) / 4
  let longWordBonus : ℚ := ((words.filter (fun w => 8 < w.length)).length : ℚ) * (1 / 2)
  let punctuationBonus : ℚ := (punctuationCount cs : ℚ) * (3 / 10)
  let specialBonus : ℚ := (specialCharsCount cs : ℚ) * (1 / 5)
  max 1 (Int.toNat ⌊baseEstimate + longWordBonus + punctuationBonus + specialBonus⌋)

/-- `ClaudeAdapter._estimate_claude_tokens` (claude_adapter.py:156), with the
same conventions. -/
def _estimate_claude_tokens (text : String) : ℕ :=
  let cs := text.toList
  let words := pySplit text
  let baseEstimate : ℚ := (cs.length : ℚ) / 4
  let longWordAdjustment : ℚ := ((words.filter (fun w => 10 < w.length)).length : ℚ) * (3 / 10)
  let punctuationAdjustment : ℚ := (punctuationCount cs : ℚ) * (1 / 4)
  let xmlAdjustment : ℚ := (xmlTagCount cs : ℚ) * (1 / 2)
  let specialAdjustment : ℚ := (specialCharsCount cs : ℚ) * (3 / 20)
  max 1 (Int.toNat ⌊baseEstimate + longWordAdjustment + punctuationAdjustment +
    xmlAdjustment + specialAdjustment⌋)

/-- An exact subword tokenizer as held by `OpenAIAdapter.tokenizer` when
`tiktoken` imports successfully: `encode` returns the token ids, or `none`
when it raises (openai_adapter.py:44 catches that and falls back). -/
structure Tokenizer where
  encode : String → Option (List ℕ)

/-- `OpenAIAdapter.count_tokens` (openai_adapter.py:32): clean the text, use
the exact tokenizer when one was initialized (falling back to the estimator
if `encode` raises), otherwise the estimator. -/
def OpenAIAdapter.count_tokens (tokenizer : Option Tokenizer) (text : String) : ℕ :=
  let cleaned := _clean_text_for_tokenization text
  match tokenizer with
  | some tk =>
    match tk.encode cleaned with
    | some ids => ids.length
    | none => _estimate_gpt_tokens cleaned
  | none => _estimate_gpt_tokens cleaned

/-- `ClaudeAdapter.count_tokens` (claude_adapter.py:32):
`_initialize_tokenizer` always returns `None` for Claude
(claude_adapter.py:145), so the estimator is always used. -/
def ClaudeAdapter.count_tokens (text : String) : ℕ :=
  _estimate_claude_tokens (_clean_text_for_tokenization text)

/-- `OpenAIAdapter._get_default_config` (openai_adapter.py:96): the static
catalog with fall-back to the gpt-3.5-turbo entry. -/
def OpenAIAdapter.getDefaultConfig (modelName : String) : ModelConfig :=
  if modelName = "gpt-3.5-turbo-16k" then
    ⟨"gpt-3.5-turbo-16k", 16384, 3 / 1000, 1 / 250, some "cl100k_base"⟩
  else if modelName = "gpt-4" then
    ⟨"gpt-4", 8192, 3 / 100, 3 / 50, some "cl100k_base"⟩
  else if modelName = "gpt-4-turbo" then
    ⟨"gpt-4-turbo", 128000, 1 / 100, 3 / 100, some "cl100k_base"⟩
  else if modelName = "gpt-4o" then
    ⟨"gpt-4o", 128000, 1 / 200, 3 / 200, some "cl100k_base"⟩
  else
    ⟨"gpt-3.5-turbo", 4096, 3 / 2000, 1 / 500, some "cl100k_base"⟩

/-- `ClaudeAdapter._get_default_config` (claude_adapter.py:96): the static
catalog with fall-back to the claude-3-sonnet entry. -/
def ClaudeAdapter.getDefaultConfig (modelName : String) : ModelConfig :=
  if modelName = "claude-2" then
    ⟨"claude-2", 100000, 1 / 125, 3 / 125, some "claude"⟩
  else if modelName = "claude-2.1" then
    ⟨"claude-2.1", 200000, 1 / 125, 3 / 125, some "claude"⟩
  else if modelName = "claude-3-haiku" then
    ⟨"claude-3-haiku", 200000, 1 / 4000, 1 / 800, some "claude"⟩
  else if modelName = "claude-3-opus" then
    ⟨"claude-3-opus", 200000, 3 / 200, 3 / 40, some "claude"⟩
  else if modelName = "claude-3.5-sonnet" then
    ⟨"claude-3.5-sonnet", 200000, 3 / 1000, 3 / 200, some "claude"⟩
  else
    ⟨"claude-3-sonnet", 200000, 3 / 1000, 3 / 200, some "claude"⟩

/-- `OpenAIAdapter.calculate_cost` (openai_adapter.py:54): pure price
arithmetic over the profile, no side effects. -/
def OpenAIAdapter.calculate_cost (config : ModelConfig)
    (inputTokens outputTokens : ℕ) : ℚ :=
  (inputTokens : ℚ) / 1000 * config.costPer1kInputTokens +
    (outputTokens : ℚ) / 1000 * config.costPer1kOutputTokens

/-- `ClaudeAdapter.calculate_cost` (claude_adapter.py:49): the identical
arithmetic. -/
def ClaudeAdapter.calculate_cost (config : ModelConfig)
    (inputTokens outputTokens : ℕ) : ℚ :=
  (inputTokens : ℚ) / 1000 * config.costPer1kInputTokens +
    (outputTokens : ℚ) / 1000 * config.costPer1kOutputTokens

/-- `LLMAdapter.calculate_cost_reduction` (adapters/base.py:99). -/
def LLMAdapter.calculate_cost_reduction (config : ModelConfig)
    (tokenReduction : ℤ) : ℚ :=
  (tokenReduction : ℚ) * (config.costPer1kInputTokens / 1000)

/-! ## The coordinator (core.py) -/

/-- A strategy as seen by the coordinator: its class name, its `can_apply`
predicate and its `apply` method (`.error` models a raised exception). -/
structure Strategy where
  name : String
  can_apply : String → Bool
  apply : String → Except PyError String

/-- `OptimizationResult` (core.py:17).  The `metadata` dictionary entries are
the three trailing fields; `optimization_time` (wall-clock seconds) is not
modelled. -/
structure OptimizationResult where
  original_prompt : String
  optimized_prompt : String
  token_reduction : ℤ
  semantic_similarity : ℝ
  cost_reduction : ℚ
  strategies_used : List String
  original_tokens : ℕ
  optimized_tokens : ℕ
  reduction_percentage : ℚ

/-- The adapter interface the coordinator uses: a profile plus the adapter's
`count_tokens` method. -/
structure LLMAdapter where
  config : ModelConfig
  countTokens : String → ℕ

/-- `PromptOptimizer` (core.py:31). -/
structure PromptOptimizer where
  llmAdapter : Option LLMAdapter
  strategies : List Strategy
  aggressiveMode : Bool
  preserveMeaningThreshold : ℝ

/-- `PromptOptimizer._count_tokens` (core.py:174): the adapter's count, or a
whitespace word count when no adapter is configured. -/
def PromptOptimizer._count_tokens (opt : PromptOptimizer) (text : String) : ℕ :=
  match opt.llmAdapter with
  | some a => a.countTokens text
  | none => (pySplit text).length

/-- `PromptOptimizer._select_strategies` (core.py:182): `if custom_strategies:`
is false for both `None` and the empty list, in which case the configured
list is used unchanged; otherwise the configured list is filtered by class
name. -/
def PromptOptimizer._select_strategies (opt : PromptOptimizer)
    (customStrategies : Option (List String)) : List Strategy :=
  match customStrategies with
  | some cs =>
    if cs.isEmpty then opt.strategies
    else opt.strategies.filter (fun s => s.name ∈ cs)
  | none => opt.strategies

/-- `PromptOptimizer._should_apply_strategy` (core.py:192): the body is a
placeholder comment followed by `return True`; in particular the strategy's
`can_apply` is never consulted. -/
def PromptOptimizer._should_apply_strategy (_opt : PromptOptimizer)
    (_strategy : Strategy) (_currentPrompt : String)
    (_targetReduction : Option ℚ) : Bool :=
  true

/-- `PromptOptimizer._validate_optimization` (core.py:203): the similarity is
computed between the ORIGINAL prompt and the candidate, never between
intermediates. -/
noncomputable def PromptOptimizer._validate_optimization (opt : PromptOptimizer)
    (original optimized : String) : Prop :=
  SemanticMetrics.calculate_similarity original optimized ≥ opt.preserveMeaningThreshold

/-- `PromptOptimizer._calculate_cost_reduction` (core.py:208). -/
def PromptOptimizer._calculate_cost_reduction (opt : PromptOptimizer)
    (tokenReduction : ℤ) : ℚ :=
  match opt.llmAdapter with
  | some a => LLMAdapter.calculate_cost_reduction a.config tokenReduction
  | none => (tokenReduction : ℚ) * (1 / 1000000)

/-- The loop state of `optimize` (core.py:93): the current prompt and the
names of the accepted strategies. -/
structure LoopState where
  current : String
  used : List String

open Classical in
/-- One iteration of the strategy loop of `optimize` (core.py:96): the
`_should_apply_strategy` gate (always true), the `apply` call whose raised
exception is caught, logged and treated as a rejection, and the
`_validate_optimization` acceptance test against the original prompt. -/
noncomputable def PromptOptimizer.processStrategy (opt : PromptOptimizer)
    (originalPrompt : String) (targetReduction : Option ℚ)
    (st : LoopState) (s : Strategy) : LoopState :=
  if opt._should_apply_strategy s st.current targetReduction then
    match s.apply st.current with
    | .error _ => st
    | .ok optimized =>
      if opt._validate_optimization originalPrompt optimized then
        { current := optimized, used := st.used ++ [s.name] }
      else st
  else st

/-- `PromptOptimizer.optimize` (core.py:65): baseline token count, the
strategy loop, final metrics and the assembled result record.
`preserve_structure` is accepted and never read, as in the source;
`optimization_time` is not modelled. -/
noncomputable def PromptOptimizer.optimize (opt : PromptOptimizer) (prompt : String)
    (targetReduction : Option ℚ) (customStrategies : Option (List String))
    (_preserveStructure : Bool) : OptimizationResult :=
  let originalTokens := opt._count_tokens prompt
  let final := (opt._select_strategies customStrategies).foldl
    (opt.processStrategy prompt targetReduction) ⟨prompt, []⟩
  let optimizedTokens := opt._count_tokens final.current
  let tokenReduction : ℤ := (originalTokens : ℤ) - (optimizedTokens : ℤ)
  { original_prompt := prompt
    optimized_prompt := final.current
    token_reduction := tokenReduction
    semantic_similarity := SemanticMetrics.calculate_similarity prompt final.current
    cost_reduction := opt._calculate_cost_reduction tokenReduction
    strategies_used := final.used
    original_tokens := originalTokens
    optimized_tokens := optimizedTokens
    reduction_percentage :=
      if 0 < originalTokens then (tokenReduction : ℚ) / (originalTokens : ℚ) else 0 }

/-! ## Concrete instances used in the statements below

These are inputs for the theorems, not part of the embedded program: a
contract-conforming strategy is any value of `Strategy`, and an exact
tokenizer any value of `Tokenizer`. -/

/-- A contract-conforming strategy that returns its input unchanged. -/
def identityStrategy : Strategy :=
  ⟨"IdentityStrategy", fun _ => true, fun t => .ok t⟩

/-- A contract-conforming strategy whose `can_apply` is false on every input
but whose `apply` appends a token. -/
def appendStrategy : Strategy :=
  ⟨"AppendStrategy", fun _ => false, fun t => .ok (t ++ " x")⟩

/-- A strategy whose `apply` always raises. -/
def failingStrategy : Strategy :=
  ⟨"FailingStrategy", fun _ => true, fun _ => .error (PyError.valueError "boom")⟩

/-- An optimizer with no adapter, the given threshold and strategies
(`aggressive_mode` left at its default). -/
def mkOptimizer (threshold : ℝ) (ss : List Strategy) : PromptOptimizer :=
  ⟨none, ss, false, threshold⟩

/-- A stand-in for an exact subword tokenizer (such as tiktoken): one token
per character.  Like every real tokenizer it encodes the empty string to an
empty token list, encodes any non-empty string to at least one token, and
never raises. -/
def charTokenizer : Tokenizer :=
  ⟨fun s => some (s.toList.map Char.toNat)⟩

/-! ## Auxiliary lemmas about the string primitives -/

theorem char_toNat_ofNat_valid (n : ℕ) (h : n.isValidChar) :
    (Char.ofNat n).toNat = n := by
  unfold Char.ofNat
  simp only [h, dif_pos]
  unfold Char.ofNatAux Char.toNat
  simp [UInt32.toNat, BitVec.toNat_ofNatLt]

theorem char_ne_of_toNat_ne {c d : Char} (h : c.toNat ≠ d.toNat) : c ≠ d :=
  fun he => h (he ▸ rfl)

/-- Lower-casing does not change whether a character is whitespace. -/
theorem lowerChar_isWhitespace (c : Char) :
    (lowerChar c).isWhitespace = c.isWhitespace := by
  unfold lowerChar
  split
  case isTrue h =>
    have hv : ((c.toNat + 32) : ℕ).isValidChar := Or.inl (by omega)
    have ht : (Char.ofNat (c.toNat + 32)).toNat = c.toNat + 32 :=
      char_toNat_ofNat_valid _ hv
    have hs : (' ' : Char).toNat = 32 := rfl
    have htb : ('\t' : Char).toNat = 9 := rfl
    have hr : ('\x0d' : Char).toNat = 13 := rfl
    have hn : ('\n' : Char).toNat = 10 := rfl
    have h1 : (Char.ofNat (c.toNat + 32)).isWhitespace = false := by
      simp only [Char.isWhitespace]
      rw [decide_eq_false (char_ne_of_toNat_ne (by omega)),
        decide_eq_false (char_ne_of_toNat_ne (by omega)),
        decide_eq_false (char_ne_of_toNat_ne (by omega)),
        decide_eq_false (char_ne_of_toNat_ne (by omega))]
      rfl
    have h2 : c.isWhitespace = false := by
      simp only [Char.isWhitespace]
      rw [decide_eq_false (char_ne_of_toNat_ne (by omega)),
        decide_eq_false (char_ne_of_toNat_ne (by omega)),
        decide_eq_false (char_ne_of_toNat_ne (by omega)),
        decide_eq_false (char_ne_of_toNat_ne (by omega))]
      rfl
    rw [h1, h2]
  case isFalse h => rfl

/-- `splitRunsGo` commutes with mapping a character function that preserves
the run predicate. -/
theorem splitRunsGo_map (f : Char → Char) (p : Char → Bool)
    (hf : ∀ c, p (f c) = p c) :
    ∀ (cs acc : List Char),
      splitRunsGo p (acc.map f) (cs.map f) = (splitRunsGo p acc cs).map (List.map f) := by
  intro cs
  induction cs with
  | nil =>
    intro acc
    cases acc <;> simp [splitRunsGo, List.map_reverse]
  | cons c cs ih =>
    intro acc
    simp only [List.map_cons, splitRunsGo, hf c]
    by_cases hp : p c
    · simp only [hp, if_true]
      exact ih (c :: acc)
    · simp only [hp, Bool.false_eq_true, if_false]
      cases acc with
      | nil => simpa using ih []
      | cons a as =>
        simp only [List.map_cons, List.isEmpty_cons, Bool.false_eq_true, if_false]
        rw [show splitRunsGo p [] (List.map f cs) = splitRunsGo p (List.map f []) (List.map f cs) from rfl,
          ih []]
        simp [List.map_reverse]

theorem splitRuns_map (f : Char → Char) (p : Char → Bool)
    (hf : ∀ c, p (f c) = p c) (cs : List Char) :
    splitRuns p (cs.map f) = (splitRuns p cs).map (List.map f) := by
  unfold splitRuns
  simpa using splitRunsGo_map f p hf cs []

theorem splitRunsGo_ne_nil (p : Char → Bool) :
    ∀ (cs acc : List Char), ((∃ c ∈ cs, p c = true) ∨ acc ≠ []) →
      splitRunsGo p acc cs ≠ [] := by
  intro cs
  induction cs with
  | nil =>
    intro acc h
    have hacc : acc ≠ [] := by
      rcases h with ⟨c, hc, _⟩ | h
      · exact absurd hc (List.not_mem_nil c)
      · exact h
    cases acc with
    | nil => exact absurd rfl hacc
    | cons a as => simp [splitRunsGo]
  | cons c cs ih =>
    intro acc h
    simp only [splitRunsGo]
    by_cases hp : p c
    · simp only [hp, if_true]
      exact ih (c :: acc) (Or.inr (by simp))
    · simp only [hp, Bool.false_eq_true, if_false]
      have h' : (∃ c ∈ cs, p c = true) ∨ acc ≠ [] := by
        rcases h with ⟨d, hd, hpd⟩ | h
        · rcases List.mem_cons.mp hd with rfl | hd
          · exact absurd hpd (by simp [hp])
          · exact Or.inl ⟨d, hd, hpd⟩
        · exact Or.inr h
      cases acc with
      | nil =>
        rcases h' with h' | h'
        · simpa using ih [] (Or.inl h')
        · exact absurd rfl h'
      | cons a as => simp

/-- A string containing a non-whitespace character splits into at least one
word. -/
theorem pySplit_ne_nil {x : String} {c : Char}
    (hc : c ∈ x.toList) (hw : ¬ c.isWhitespace) : pySplit x ≠ [] := by
  unfold pySplit
  intro h
  have := splitRunsGo_ne_nil (fun c => !c.isWhitespace) x.toList []
    (Or.inl ⟨c, hc, by simp [hw]⟩)
  rw [List.map_eq_nil_iff] at h
  exact this h

/-- Lower-casing preserves the non-emptiness of the word split. -/
theorem pySplit_lower_ne_nil {x : String} (hx : pySplit x ≠ []) :
    pySplit (pyLower x) ≠ [] := by
  unfold pySplit at hx ⊢
  intro h
  apply hx
  have htl : (pyLower x).toList = x.toList.map lowerChar := rfl
  rw [htl, splitRuns_map lowerChar _ (fun c => by
    simp [lowerChar_isWhitespace c])] at h
  rw [List.map_eq_nil_iff] at h ⊢
  rw [List.map_eq_nil_iff] at h
  exact h

/-- Summing a list of non-negative reals with one positive member is
positive. -/
theorem list_sum_pos_of_mem {l : List ℝ} (h0 : ∀ a ∈ l, 0 ≤ a) {a : ℝ}
    (ha : a ∈ l) (hpos : 0 < a) : 0 < l.sum := by
  induction l with
  | nil => exact absurd ha (List.not_mem_nil a)
  | cons b bs ih =>
    rw [List.sum_cons]
    rcases List.mem_cons.mp ha with rfl | ha
    · have : 0 ≤ bs.sum := List.sum_nonneg (fun x hx => h0 x (List.mem_cons_of_mem _ hx))
      linarith
    · have hb : 0 ≤ b := h0 b (List.mem_cons_self b bs)
      have : 0 < bs.sum := ih (fun x hx => h0 x (List.mem_cons_of_mem _ hx)) ha
      linarith

/-! ## Lemmas about the Jaccard word overlap -/

theorem pyWordOverlap_nonneg (a b : String) : 0 ≤ pyWordOverlap a b := by
  unfold pyWordOverlap
  dsimp only
  split
  · exact le_refl 0
  · split
    · exact le_refl 0
    · split
      · exact le_refl 0
      · positivity

theorem pyWordOverlap_le_one (a b : String) : pyWordOverlap a b ≤ 1 := by
  unfold pyWordOverlap
  dsimp only
  split
  · exact zero_le_one
  · split
    · exact zero_le_one
    · split
      · exact zero_le_one
      · case _ h =>
        rw [div_le_one (by
          have := Finset.nonempty_iff_ne_empty.mpr h
          exact_mod_cast Finset.card_pos.mpr this)]
        exact_mod_cast Finset.card_le_card Finset.inter_subset_union

theorem pyWordOverlap_self {x : String} (hx : pySplit x ≠ []) :
    pyWordOverlap x x = 1 := by
  have hxe : x ≠ "" := fun h => hx (by rw [h]; rfl)
  have hW : (pySplit (pyLower x)).toFinset ≠ ∅ := by
    rw [Ne, List.toFinset_eq_empty_iff]
    exact pySplit_lower_ne_nil hx
  unfold pyWordOverlap
  rw [if_neg (by simp [hxe])]
  simp only [Finset.inter_self, Finset.union_self]
  rw [if_neg (by simp [hW]), if_neg hW]
  exact div_self (by
    have hpos := Finset.card_pos.mpr (Finset.nonempty_iff_ne_empty.mpr hW)
    exact_mod_cast Nat.pos_iff_ne_zero.mp hpos)

/-! ## Lemmas about `SemanticMetrics.calculate_similarity` -/

namespace SemanticMetrics

theorem mem_rawVocab {d1 d2 : List String} {t : String} (ht : t ∈ rawVocab d1 d2) :
    t ∈ d1 ∨ t ∈ d2 := by
  unfold rawVocab at ht
  rw [List.mem_insertionSort, List.mem_dedup, List.mem_append] at ht
  exact ht

theorem rawVocab_ne_nil {d1 d2 : List String} (hd : d1 ≠ []) :
    rawVocab d1 d2 ≠ [] := by
  unfold rawVocab
  intro h
  have hlen := congrArg List.length h
  rw [List.length_insertionSort] at hlen
  have hnil : (d1 ++ d2).dedup = [] := List.length_eq_zero.mp hlen
  rw [List.dedup_eq_nil] at hnil
  exact hd (List.append_eq_nil.mp hnil).1

theorem selectVocab_exists {d1 : List String} (d2 : List String) (hd : d1 ≠ []) :
    ∃ t ∈ selectVocab d1 d2, t ∈ rawVocab d1 d2 := by
  unfold selectVocab
  dsimp only
  split
  case isTrue h =>
    obtain ⟨t, ht⟩ := List.exists_mem_of_ne_nil _ (rawVocab_ne_nil hd)
    exact ⟨t, ht, ht⟩
  case isFalse h =>
    have hlen : 1000 < (rawVocab d1 d2).length := by omega
    have hr : ∀ x ∈ ((rawVocab d1 d2).insertionSort (fun a b =>
        countOccs b (d1 ++ d2) < countOccs a (d1 ++ d2) ∨
          (countOccs b (d1 ++ d2) = countOccs a (d1 ++ d2) ∧ a ≤ b))).take 1000,
        x ∈ rawVocab d1 d2 :=
      fun x hx => (List.mem_insertionSort _).mp (List.mem_of_mem_take hx)
    have hne : ((rawVocab d1 d2).insertionSort (fun a b =>
        countOccs b (d1 ++ d2) < countOccs a (d1 ++ d2) ∨
          (countOccs b (d1 ++ d2) = countOccs a (d1 ++ d2) ∧ a ≤ b))).take 1000 ≠ [] := by
      intro hnil
      have hlen2 := congrArg List.length hnil
      rw [List.length_take, List.length_insertionSort] at hlen2
      simp only [List.length_nil] at hlen2
      omega
    obtain ⟨y, hy⟩ := List.exists_mem_of_ne_nil _ hne
    refine ⟨y, ?_, hr y hy⟩
    rw [List.mem_filter]
    exact ⟨hr y hy, decide_eq_true hy⟩

theorem idf_self {d : List String} {t : String} (ht : t ∈ d) : idf d d t = 1 := by
  unfold idf
  dsimp only
  have hc : 0 < countOccs t d := by
    unfold countOccs
    exact List.count_pos_iff.mpr ht
  rw [if_pos hc]
  push_cast
  norm_num [Real.log_one]

theorem tfidfWeight_self_pos {d : List String} {t : String} (ht : t ∈ d) :
    0 < tfidfWeight d d d t := by
  unfold tfidfWeight
  rw [idf_self ht, mul_one]
  have hc : 0 < countOccs t d := by
    unfold countOccs
    exact List.count_pos_iff.mpr ht
  exact_mod_cast hc

theorem tfidfCosine_self {d : List String} (hd : d ≠ []) : tfidfCosine d d = 1 := by
  unfold tfidfCosine
  dsimp only
  obtain ⟨t, htV, htRaw⟩ := selectVocab_exists d hd
  have htd : t ∈ d := by rcases mem_rawVocab htRaw with h | h <;> exact h
  have h0 : ∀ a ∈ (selectVocab d d).map
      (fun t => tfidfWeight d d d t * tfidfWeight d d d t), 0 ≤ a := by
    intro a ha
    obtain ⟨u, _, rfl⟩ := List.mem_map.mp ha
    exact mul_self_nonneg _
  have hS0 : 0 ≤ ((selectVocab d d).map
      (fun t => tfidfWeight d d d t * tfidfWeight d d d t)).sum :=
    List.sum_nonneg h0
  have hSpos : 0 < ((selectVocab d d).map
      (fun t => tfidfWeight d d d t * tfidfWeight d d d t)).sum :=
    list_sum_pos_of_mem h0 (List.mem_map_of_mem _ htV)
      (mul_pos (tfidfWeight_self_pos htd) (tfidfWeight_self_pos htd))
  rw [Real.mul_self_sqrt hS0]
  exact div_self (ne_of_gt hSpos)

theorem calculate_similarity_nonneg (a b : String) :
    0 ≤ calculate_similarity a b := by
  unfold calculate_similarity
  dsimp only
  split
  · exact le_refl 0
  · split
    · unfold _word_overlap_similarity
      exact_mod_cast pyWordOverlap_nonneg a b
    · exact le_max_left 0 _

theorem calculate_similarity_le_one (a b : String) :
    calculate_similarity a b ≤ 1 := by
  unfold calculate_similarity
  dsimp only
  split
  · exact zero_le_one
  · split
    · unfold _word_overlap_similarity
      exact_mod_cast pyWordOverlap_le_one a b
    · exact max_le zero_le_one (min_le_right _ 1)

theorem calculate_similarity_of_empty {a b : String} (h : a = "" ∨ b = "") :
    calculate_similarity a b = 0 := by
  unfold calculate_similarity
  rw [if_pos h]

theorem calculate_similarity_self {x : String} (hx : pySplit x ≠ []) :
    calculate_similarity x x = 1 := by
  have hxe : x ≠ "" := fun h => hx (by rw [h]; rfl)
  unfold calculate_similarity
  dsimp only
  rw [if_neg (by simp [hxe])]
  by_cases hd : docTerms x = []
  · rw [if_pos ⟨hd, hd⟩]
    unfold _word_overlap_similarity
    rw [pyWordOverlap_self hx]
    norm_num
  · rw [if_neg (by simp [hd])]
    rw [tfidfCosine_self hd]
    norm_num

end SemanticMetrics

/-- A string whose character list is empty is the empty string. -/
theorem string_toList_eq_nil {s : String} (h : s.toList = []) : s = "" := by
  cases s with
  | mk data =>
    cases data with
    | nil => rfl
    | cons c cs => exact absurd h (by simp [String.toList])

/-! ## Lemmas about the coordinator loop -/

/-- One loop step preserves the invariant: once some strategy has been
accepted, the current text has similarity at least the threshold against the
original prompt. -/
theorem processStrategy_invariant (opt : PromptOptimizer) (originalPrompt : String)
    (tr : Option ℚ) (st : LoopState) (s : Strategy)
    (h : st.used ≠ [] →
      SemanticMetrics.calculate_similarity originalPrompt st.current ≥
        opt.preserveMeaningThreshold) :
    (opt.processStrategy originalPrompt tr st s).used ≠ [] →
      SemanticMetrics.calculate_similarity originalPrompt
          (opt.processStrategy originalPrompt tr st s).current ≥
        opt.preserveMeaningThreshold := by
  unfold PromptOptimizer.processStrategy
  simp only [PromptOptimizer._should_apply_strategy, if_true]
  cases happ : s.apply st.current with
  | error e => exact h
  | ok optimized =>
    dsimp only
    by_cases hv : opt._validate_optimization originalPrompt optimized
    · rw [if_pos hv]
      intro _
      exact hv
    · rw [if_neg hv]
      exact h

/-- The loop invariant, folded over a strategy list. -/
theorem foldl_invariant (opt : PromptOptimizer) (originalPrompt : String)
    (tr : Option ℚ) :
    ∀ (l : List Strategy) (st : LoopState),
      (st.used ≠ [] →
        SemanticMetrics.calculate_similarity originalPrompt st.current ≥
          opt.preserveMeaningThreshold) →
      ((l.foldl (opt.processStrategy originalPrompt tr) st).used ≠ [] →
        SemanticMetrics.calculate_similarity originalPrompt
            (l.foldl (opt.processStrategy originalPrompt tr) st).current ≥
          opt.preserveMeaningThreshold) := by
  intro l
  induction l with
  | nil => intro st h; exact h
  | cons s l ih =>
    intro st h
    exact ih _ (processStrategy_invariant opt originalPrompt tr st s h)

/-- Running a one-strategy optimizer whose strategy succeeds and passes the
gate: the strategy is recorded and its output becomes the result. -/
theorem optimize_single_ok (threshold : ℝ) (s : Strategy) (prompt out : String)
    (tr : Option ℚ) (ps : Bool) (happ : s.apply prompt = .ok out)
    (hsim : SemanticMetrics.calculate_similarity prompt out ≥ threshold) :
    ((mkOptimizer threshold [s]).optimize prompt tr none ps).strategies_used = [s.name] ∧
      ((mkOptimizer threshold [s]).optimize prompt tr none ps).optimized_prompt = out := by
  unfold PromptOptimizer.optimize PromptOptimizer._select_strategies
  dsimp only
  rw [show (mkOptimizer threshold [s]).strategies = [s] from rfl]
  rw [List.foldl_cons, List.foldl_nil]
  unfold PromptOptimizer.processStrategy
  simp only [PromptOptimizer._should_apply_strategy, if_true]
  rw [happ]
  dsimp only
  rw [if_pos (show (mkOptimizer threshold [s])._validate_optimization prompt out from hsim)]
  exact ⟨rfl, rfl⟩

/-- One loop step reads only the strategy's `apply` and `name` and the
optimizer's threshold: `can_apply` and the strategy list are never
consulted. -/
theorem processStrategy_congr (opt opt' : PromptOptimizer)
    (hθ : opt'.preserveMeaningThreshold = opt.preserveMeaningThreshold)
    (originalPrompt : String) (tr : Option ℚ) (st : LoopState) (s s' : Strategy)
    (hn : s'.name = s.name) (ha : s'.apply = s.apply) :
    opt'.processStrategy originalPrompt tr st s' =
      opt.processStrategy originalPrompt tr st s := by
  unfold PromptOptimizer.processStrategy PromptOptimizer._validate_optimization
  simp only [PromptOptimizer._should_apply_strategy, if_true, hn, ha, hθ]

/-- A strategy that raises on the current text leaves the loop state
unchanged. -/
theorem processStrategy_error (opt : PromptOptimizer) (originalPrompt : String)
    (tr : Option ℚ) (st : LoopState) (s : Strategy) {e : PyError}
    (herr : s.apply st.current = .error e) :
    opt.processStrategy originalPrompt tr st s = st := by
  unfold PromptOptimizer.processStrategy
  simp only [PromptOptimizer._should_apply_strategy, if_true]
  rw [herr]

/-- Folding the loop under an optimizer that differs only outside the
threshold gives the same state. -/
theorem foldl_processStrategy_congr (opt opt' : PromptOptimizer)
    (hθ : opt'.preserveMeaningThreshold = opt.preserveMeaningThreshold)
    (originalPrompt : String) (tr : Option ℚ) :
    ∀ (l : List Strategy) (st : LoopState),
      l.foldl (opt'.processStrategy originalPrompt tr) st =
        l.foldl (opt.processStrategy originalPrompt tr) st := by
  intro l
  induction l with
  | nil => intro st; rfl
  | cons s l ih =>
    intro st
    rw [List.foldl_cons, List.foldl_cons,
      processStrategy_congr opt opt' hθ originalPrompt tr st s s rfl rfl]
    exact ih _

/-- An optimizer with an empty strategy list selects no strategies, whatever
the custom list. -/
theorem select_strategies_nil (opt : PromptOptimizer) (h : opt.strategies = [])
    (cs : Option (List String)) : opt._select_strategies cs = [] := by
  unfold PromptOptimizer._select_strategies
  cases cs with
  | none => exact h
  | some l =>
    dsimp only
    split
    · exact h
    · rw [h]; rfl

/-- Folding the loop over a list of strategies modified only in `can_apply`
gives the same state. -/
theorem foldl_can_apply_irrel (opt opt' : PromptOptimizer)
    (hθ : opt'.preserveMeaningThreshold = opt.preserveMeaningThreshold)
    (originalPrompt : String) (tr : Option ℚ) (g : Strategy → String → Bool) :
    ∀ (l : List Strategy) (st : LoopState),
      (l.map (fun s => { s with can_apply := g s })).foldl
          (opt'.processStrategy originalPrompt tr) st =
        l.foldl (opt.processStrategy originalPrompt tr) st := by
  intro l
  induction l with
  | nil => intro st; rfl
  | cons s l ih =>
    intro st
    rw [List.map_cons, List.foldl_cons, List.foldl_cons,
      processStrategy_congr opt opt' hθ originalPrompt tr st s
        { s with can_apply := g s } rfl rfl]
    exact ih _

/-! ## The claims -/

/-- C1: for every call to `PromptOptimizer.optimize`, if the returned
`strategies_used` list is non-empty then the returned `semantic_similarity`
(computed between the original prompt and the final text) is at least the
configured `preserve_meaning_threshold`: every accepted candidate was
validated by `calculate_similarity` against the original prompt, and the
final text is the last accepted candidate. -/
theorem optimize_similarity_invariant (opt : PromptOptimizer) (prompt : String)
    (tr : Option ℚ) (cs : Option (List String)) (ps : Bool)
    (h : (opt.optimize prompt tr cs ps).strategies_used ≠ []) :
    (opt.optimize prompt tr cs ps).semantic_similarity ≥
      opt.preserveMeaningThreshold := by
  unfold PromptOptimizer.optimize at h ⊢
  dsimp only at h ⊢
  exact foldl_invariant opt prompt tr _ ⟨prompt, []⟩ (fun hc => absurd rfl hc) h

/-- C1 witness: a concrete optimizer whose single strategy is accepted. -/
theorem optimize_similarity_invariant_witness :
    ((mkOptimizer 0 [identityStrategy]).optimize "hello" none none true).strategies_used ≠ [] ∧
      ((mkOptimizer 0 [identityStrategy]).optimize "hello" none none true).semantic_similarity ≥
        (mkOptimizer 0 [identityStrategy]).preserveMeaningThreshold := by
  have h := (optimize_single_ok 0 identityStrategy "hello" "hello" none true rfl
    (SemanticMetrics.calculate_similarity_nonneg "hello" "hello")).1
  have hne : ((mkOptimizer 0 [identityStrategy]).optimize "hello" none none true).strategies_used ≠ [] := by
    rw [h]
    exact List.cons_ne_nil _ _
  exact ⟨hne, optimize_similarity_invariant _ _ _ _ _ hne⟩

/-- C2 (amended): the coordinator's `_should_apply_strategy` returns `True`
without consulting `can_apply`, so the `OptimizationResult` is invariant
under arbitrary replacement of every selected strategy's `can_apply`; in
particular a strategy whose `can_apply` is false is still applied, and can
observably change the result (see the counterexample). -/
theorem optimize_ignores_can_apply (opt : PromptOptimizer)
    (g : Strategy → String → Bool) (prompt : String) (tr : Option ℚ)
    (cs : Option (List String)) (ps : Bool) :
    ({ opt with strategies := opt.strategies.map (fun s => { s with can_apply := g s }) } :
        PromptOptimizer).optimize prompt tr cs ps = opt.optimize prompt tr cs ps := by
  unfold PromptOptimizer.optimize
  dsimp only
  have hsel : ({ opt with
        strategies := opt.strategies.map (fun s => { s with can_apply := g s }) } :
        PromptOptimizer)._select_strategies cs
      = (opt._select_strategies cs).map (fun s => { s with can_apply := g s }) := by
    unfold PromptOptimizer._select_strategies
    cases cs with
    | none => rfl
    | some l =>
      dsimp only
      split
      · rfl
      · rw [List.filter_map]
        rfl
  rw [hsel, foldl_can_apply_irrel opt
    ({ opt with strategies := opt.strategies.map (fun s => { s with can_apply := g s }) })
    rfl prompt tr g (opt._select_strategies cs) ⟨prompt, []⟩]
  rfl

/-- C2 counterexample: with the threshold at 0, a strategy whose `can_apply`
is false on the prompt is nevertheless applied and observably changes the
returned `optimized_prompt` and `strategies_used` — refuting the claim that
the coordinator never invokes `apply` when `can_apply` is false. -/
theorem optimize_can_apply_false_observable :
    appendStrategy.can_apply "hello" = false ∧
      ((mkOptimizer 0 [appendStrategy]).optimize "hello" none none true).optimized_prompt =
        "hello x" ∧
      ((mkOptimizer 0 [appendStrategy]).optimize "hello" none none true).strategies_used =
        ["AppendStrategy"] := by
  have h := optimize_single_ok 0 appendStrategy "hello" "hello x" none true rfl
    (SemanticMetrics.calculate_similarity_nonneg "hello" "hello x")
  exact ⟨rfl, h.2, h.1⟩

/-- C3: `optimize` on an optimizer with an empty strategy list returns the
original text unchanged and a token reduction of 0, for every prompt and
every choice of the other arguments. -/
theorem optimize_no_strategies (opt : PromptOptimizer) (h : opt.strategies = [])
    (prompt : String) (tr : Option ℚ) (cs : Option (List String)) (ps : Bool) :
    (opt.optimize prompt tr cs ps).optimized_prompt = prompt ∧
      (opt.optimize prompt tr cs ps).token_reduction = 0 := by
  unfold PromptOptimizer.optimize
  dsimp only
  rw [select_strategies_nil opt h cs, List.foldl_nil]
  exact ⟨rfl, sub_self _⟩

/-- C3 witness: the default threshold and an empty strategy list. -/
theorem optimize_no_strategies_witness :
    ((mkOptimizer 0.85 []).optimize "hello world" none none true).optimized_prompt =
        "hello world" ∧
      ((mkOptimizer 0.85 []).optimize "hello world" none none true).token_reduction = 0 :=
  optimize_no_strategies (mkOptimizer 0.85 []) rfl "hello world" none none true

/-- C4: every `optimize` result satisfies
`token_reduction = original_tokens - optimized_tokens`, and the metadata's
reduction fraction is `token_reduction / original_tokens` when
`original_tokens > 0` and 0 when `original_tokens = 0`. -/
theorem optimize_metadata_consistent (opt : PromptOptimizer) (prompt : String)
    (tr : Option ℚ) (cs : Option (List String)) (ps : Bool) :
    (opt.optimize prompt tr cs ps).token_reduction =
        ((opt.optimize prompt tr cs ps).original_tokens : ℤ) -
          ((opt.optimize prompt tr cs ps).optimized_tokens : ℤ) ∧
      (0 < (opt.optimize prompt tr cs ps).original_tokens →
        (opt.optimize prompt tr cs ps).reduction_percentage =
          ((opt.optimize prompt tr cs ps).token_reduction : ℚ) /
            ((opt.optimize prompt tr cs ps).original_tokens : ℚ)) ∧
      ((opt.optimize prompt tr cs ps).original_tokens = 0 →
        (opt.optimize prompt tr cs ps).reduction_percentage = 0) := by
  unfold PromptOptimizer.optimize
  dsimp only
  refine ⟨rfl, ?_, ?_⟩
  · intro h
    rw [if_pos h]
  · intro h
    rw [if_neg (by omega)]

/-- C4 witness: a two-word prompt, so `original_tokens = 2 > 0`. -/
theorem optimize_metadata_consistent_witness :
    0 < ((mkOptimizer 0 []).optimize "a b" none none true).original_tokens ∧
      ((mkOptimizer 0 []).optimize "a b" none none true).reduction_percentage =
        (((mkOptimizer 0 []).optimize "a b" none none true).token_reduction : ℚ) /
          (((mkOptimizer 0 []).optimize "a b" none none true).original_tokens : ℚ) := by
  have hpos : 0 < ((mkOptimizer 0 []).optimize "a b" none none true).original_tokens := by
    unfold PromptOptimizer.optimize
    dsimp only
    decide
  exact ⟨hpos, (optimize_metadata_consistent (mkOptimizer 0 []) "a b" none none true).2.1 hpos⟩

/-- C5: `calculate_similarity` always returns a value in [0, 1], and returns
exactly 0 whenever either argument is the empty string. -/
theorem calculate_similarity_range (a b : String) :
    0 ≤ SemanticMetrics.calculate_similarity a b ∧
      SemanticMetrics.calculate_similarity a b ≤ 1 ∧
      ((a = "" ∨ b = "") → SemanticMetrics.calculate_similarity a b = 0) :=
  ⟨SemanticMetrics.calculate_similarity_nonneg a b,
   SemanticMetrics.calculate_similarity_le_one a b,
   fun h => SemanticMetrics.calculate_similarity_of_empty h⟩

/-- C5 witness: an empty first argument. -/
theorem calculate_similarity_range_witness :
    0 ≤ SemanticMetrics.calculate_similarity "" "abc" ∧
      SemanticMetrics.calculate_similarity "" "abc" ≤ 1 ∧
      SemanticMetrics.calculate_similarity "" "abc" = 0 :=
  ⟨(calculate_similarity_range "" "abc").1,
   (calculate_similarity_range "" "abc").2.1,
   (calculate_similarity_range "" "abc").2.2 (Or.inl rfl)⟩

/-- C6 (amended): `calculate_similarity x x ≥ 0.95` holds for every string
`x` containing at least one non-whitespace character (the value is in fact
exactly 1, on both the tf-idf path and the word-overlap fallback); a
non-empty but whitespace-only `x` instead yields 0 (see the
counterexample). -/
theorem calculate_similarity_identity (x : String) (hx : pySplit x ≠ []) :
    SemanticMetrics.calculate_similarity x x ≥ 0.95 := by
  rw [SemanticMetrics.calculate_similarity_self hx]
  norm_num

/-- C6 witness: a concrete two-letter string. -/
theorem calculate_similarity_identity_witness :
    SemanticMetrics.calculate_similarity "hi" "hi" ≥ 0.95 :=
  calculate_similarity_identity "hi" (by decide)

/-- C6 counterexample: the single-space string is non-empty, yet
`calculate_similarity " " " " = 0 < 0.95`: the vectorizer raises (empty
vocabulary) and the word-overlap fallback sees empty word sets. -/
theorem calculate_similarity_identity_whitespace :
    (" " : String) ≠ "" ∧ SemanticMetrics.calculate_similarity " " " " = 0 := by
  constructor
  · decide
  · unfold SemanticMetrics.calculate_similarity
    rw [if_neg (by decide)]
    dsimp only
    rw [if_pos ⟨by decide, by decide⟩]
    unfold SemanticMetrics._word_overlap_similarity
    rw [show pyWordOverlap " " " " = 0 by decide]
    norm_num

/-- C7 (amended): `count_tokens` is at least 1 on the heuristic-estimator
path of both adapters for EVERY text (even the empty one), and on the
exact-tokenizer path whenever the cleaned text is non-empty, provided the
tokenizer encodes non-empty input to at least one token; a non-empty input
whose cleaned text is empty (for instance whitespace-only) can yield 0 on
the exact path (see the counterexample). -/
theorem count_tokens_ge_one (text : String) (tk : Tokenizer) :
    1 ≤ ClaudeAdapter.count_tokens text ∧
      1 ≤ OpenAIAdapter.count_tokens none text ∧
      ((∀ s ids, s ≠ "" → tk.encode s = some ids → ids ≠ []) →
        _clean_text_for_tokenization text ≠ "" →
        1 ≤ OpenAIAdapter.count_tokens (some tk) text) := by
  refine ⟨?_, ?_, ?_⟩
  · unfold ClaudeAdapter.count_tokens _estimate_claude_tokens
    dsimp only
    exact Nat.le_max_left 1 _
  · unfold OpenAIAdapter.count_tokens _estimate_gpt_tokens
    dsimp only
    exact Nat.le_max_left 1 _
  · intro henc hcl
    unfold OpenAIAdapter.count_tokens
    dsimp only
    cases he : tk.encode (_clean_text_for_tokenization text) with
    | none =>
      unfold _estimate_gpt_tokens
      dsimp only
      exact Nat.le_max_left 1 _
    | some ids =>
      have hne : ids ≠ [] := henc _ ids hcl he
      exact Nat.one_le_iff_ne_zero.mpr (fun h0 => hne (List.length_eq_zero.mp h0))

/-- C7 witness: a two-letter text under both paths. -/
theorem count_tokens_ge_one_witness :
    1 ≤ ClaudeAdapter.count_tokens "ab" ∧
      1 ≤ OpenAIAdapter.count_tokens none "ab" ∧
      1 ≤ OpenAIAdapter.count_tokens (some charTokenizer) "ab" := by
  obtain ⟨h1, h2, h3⟩ := count_tokens_ge_one "ab" charTokenizer
  refine ⟨h1, h2, h3 ?_ (by decide)⟩
  intro s ids hs he hnil
  apply hs
  apply string_toList_eq_nil
  have hmap : s.toList.map Char.toNat = ids := by
    have he' := he
    unfold charTokenizer at he'
    exact Option.some.inj he'
  rw [hnil] at hmap
  exact List.map_eq_nil_iff.mp hmap

/-- C7 counterexample: a whitespace-only (hence non-empty) input cleans to
the empty string, which an exact tokenizer encodes to zero tokens, so
`count_tokens` returns 0 on the exact path. -/
theorem count_tokens_whitespace_zero :
    (" " : String) ≠ "" ∧ OpenAIAdapter.count_tokens (some charTokenizer) " " = 0 := by
  exact ⟨by decide, by decide⟩

/-- C8: for every profile and all token counts, `calculate_cost` of both
adapters equals `input/1000 * price_in + output/1000 * price_out` (a pure
function of its arguments); for the gpt-4 profile (0.03/1k input, 0.06/1k
output) `calculate_cost(1000, 500) = 0.06`. -/
theorem calculate_cost_formula (cfg : ModelConfig) (i o : ℕ) :
    OpenAIAdapter.calculate_cost cfg i o =
        (i : ℚ) / 1000 * cfg.costPer1kInputTokens +
          (o : ℚ) / 1000 * cfg.costPer1kOutputTokens ∧
      ClaudeAdapter.calculate_cost cfg i o =
        (i : ℚ) / 1000 * cfg.costPer1kInputTokens +
          (o : ℚ) / 1000 * cfg.costPer1kOutputTokens ∧
      OpenAIAdapter.calculate_cost (OpenAIAdapter.getDefaultConfig "gpt-4") 1000 500 =
        6 / 100 := by
  refine ⟨rfl, rfl, ?_⟩
  have hcfg : OpenAIAdapter.getDefaultConfig "gpt-4" =
      ⟨"gpt-4", 8192, 3 / 100, 3 / 50, some "cl100k_base"⟩ := by
    unfold OpenAIAdapter.getDefaultConfig
    rw [if_neg (by decide), if_pos rfl]
  rw [hcfg]
  unfold OpenAIAdapter.calculate_cost
  norm_num

/-- C9 (amended): each strategy's `apply` raises `ValueError` exactly when
the input strips to the empty string; on inputs that are non-empty after
trimming the validation never triggers — semantic compression and structural
optimization then return normally, while token reduction subsequently raises
`re.error` from the malformed pattern in `_compress_formatting`. -/
theorem strategy_apply_validation (t : String) :
    (pyStrip t = "" →
      SemanticCompressionStrategy.apply t =
          .error (PyError.valueError "Il prompt non può essere vuoto") ∧
        TokenReductionStrategy.apply t =
          .error (PyError.valueError "Il prompt non può essere vuoto") ∧
        StructuralOptimizationStrategy.apply t =
          .error (PyError.valueError "Il prompt non può essere vuoto")) ∧
    (pyStrip t ≠ "" →
      (∃ s, SemanticCompressionStrategy.apply t = .ok s) ∧
        (∃ s, StructuralOptimizationStrategy.apply t = .ok s) ∧
        TokenReductionStrategy.apply t =
          .error TokenReductionStrategy.compressFormattingError) := by
  constructor
  · intro h
    unfold SemanticCompressionStrategy.apply TokenReductionStrategy.apply
      StructuralOptimizationStrategy.apply OptimizationStrategy._validate_prompt
    rw [if_pos h]
    exact ⟨rfl, rfl, rfl⟩
  · intro h
    unfold SemanticCompressionStrategy.apply TokenReductionStrategy.apply
      StructuralOptimizationStrategy.apply OptimizationStrategy._validate_prompt
    rw [if_neg h]
    exact ⟨⟨_, rfl⟩, ⟨_, rfl⟩, rfl⟩

/-- C9 witness: a non-blank input. -/
theorem strategy_apply_validation_witness :
    (∃ s, SemanticCompressionStrategy.apply "hello" = .ok s) ∧
      (∃ s, StructuralOptimizationStrategy.apply "hello" = .ok s) ∧
      TokenReductionStrategy.apply "hello" =
        .error TokenReductionStrategy.compressFormattingError :=
  (strategy_apply_validation "hello").2 (by decide)

/-- C9 counterexample: a whitespace-only string is a non-empty string, yet
the validation raises `ValueError` in all three strategies — refuting the
claim's clause that the validation never triggers for non-empty string
input. -/
theorem strategy_apply_blank_string :
    ("   " : String) ≠ "" ∧
      SemanticCompressionStrategy.apply "   " =
        .error (PyError.valueError "Il prompt non può essere vuoto") ∧
      TokenReductionStrategy.apply "   " =
        .error (PyError.valueError "Il prompt non può essere vuoto") ∧
      StructuralOptimizationStrategy.apply "   " =
        .error (PyError.valueError "Il prompt non può essere vuoto") := by
  refine ⟨by decide, ?_, ?_, ?_⟩
  · unfold SemanticCompressionStrategy.apply OptimizationStrategy._validate_prompt
    rw [if_pos (by decide)]
  · unfold TokenReductionStrategy.apply OptimizationStrategy._validate_prompt
    rw [if_pos (by decide)]
  · unfold StructuralOptimizationStrategy.apply OptimizationStrategy._validate_prompt
    rw [if_pos (by decide)]

/-- C10: a strategy whose `apply` raises on the text it is given is caught
by the coordinator: the current text is unchanged, its name is not recorded,
the remaining strategies still run, and `optimize` returns normally — the
whole call is equal to the call without the failing strategy. -/
theorem optimize_strategy_failure (opt : PromptOptimizer) (prompt : String)
    (tr : Option ℚ) (ps : Bool) (l1 l2 : List Strategy) (s : Strategy) (e : PyError)
    (hs : opt.strategies = l1 ++ s :: l2)
    (herr : s.apply ((l1.foldl (opt.processStrategy prompt tr) ⟨prompt, []⟩).current) =
      .error e) :
    opt.optimize prompt tr none ps =
      ({ opt with strategies := l1 ++ l2 } : PromptOptimizer).optimize prompt tr none ps := by
  unfold PromptOptimizer.optimize
  dsimp only
  rw [show opt._select_strategies none = opt.strategies from rfl,
    show ({ opt with strategies := l1 ++ l2 } : PromptOptimizer)._select_strategies none =
      l1 ++ l2 from rfl, hs]
  rw [List.foldl_append, List.foldl_append, List.foldl_cons]
  rw [processStrategy_error opt prompt tr _ s herr]
  rw [foldl_processStrategy_congr opt ({ opt with strategies := l1 ++ l2 }) rfl prompt tr l2,
    foldl_processStrategy_congr opt ({ opt with strategies := l1 ++ l2 }) rfl prompt tr l1]
  rfl

/-- C10 witness: a failing strategy followed by a succeeding one. -/
theorem optimize_strategy_failure_witness :
    failingStrategy.apply ((([] : List Strategy).foldl
        ((mkOptimizer 0 [failingStrategy, identityStrategy]).processStrategy "hi" none)
        ⟨"hi", []⟩).current) = .error (PyError.valueError "boom") ∧
      (mkOptimizer 0 [failingStrategy, identityStrategy]).optimize "hi" none none true =
        ({ mkOptimizer 0 [failingStrategy, identityStrategy] with
            strategies := [] ++ [identityStrategy] } : PromptOptimizer).optimize
          "hi" none none true := by
  refine ⟨rfl, ?_⟩
  exact optimize_strategy_failure (mkOptimizer 0 [failingStrategy, identityStrategy]) "hi"
    none true [] [identityStrategy] failingStrategy (PyError.valueError "boom") rfl rfl

end PromptOpt
